import Mathlib

/-!
Verification of the asynchronous job pipeline of the financial-document
query system: the event bus (`backend/events.py`, `worker/event_publisher.py`),
the job store and queue (`backend/job_queue.py`, `worker/consumer.py`),
the chat store (`backend/arangodb.py`), and the agent runner
(`worker/opencode_runner.py`).  Each Python function is embedded as an
executable Lean definition over explicit state; Redis, the Arango record
store and the file system are modelled as association lists, and wall-clock
times are passed in as parameters.
-/

namespace FinKG

/-- Python `s[:n]` (slicing is by characters, as is `List.take` on `String.data`). -/
def strTake (s : String) (n : Nat) : String := String.mk (s.data.take n)

/-- Python `s.strip()`: drop leading and trailing whitespace.  Implemented on
the character list so that it reduces in the kernel. -/
def trimStr (s : String) : String :=
  String.mk (((s.data.dropWhile Char.isWhitespace).reverse.dropWhile Char.isWhitespace).reverse)

/-- Python `l[-n:]`: the last `n` elements of a list (all of them when shorter). -/
def takeLastN (n : Nat) (l : List α) : List α := l.drop (l.length - n)

/-! ## Event bus (`backend/events.py`, mirrored by `worker/event_publisher.py`)

An `Event` is the published dict: its `type` field, the `timestamp` stamped by
`publish` (`time.time_ns()`), and `payload` standing for the remaining
type-specific fields, which the bus never inspects. -/

structure Event where
  etype : String
  timestamp : Int
  payload : String := ""
deriving DecidableEq, Repr

/-- The dedup key tracked by `subscribe`: the f-string joining the type and
the timestamp with a colon. -/
def dedupKey (e : Event) : String := e.etype ++ ":" ++ toString e.timestamp

/-- `data.get("type") in ("complete", "error")`. -/
def isTerminal (e : Event) : Bool := e.etype == "complete" || e.etype == "error"

/-- The history-replay loop of `EventPublisher.subscribe` (events.py lines
53-66): every history entry has its dedup key added to `seen_ids` and is
yielded (there is no membership check inside this loop); a terminal entry
ends the generator.  Returns (yielded events, seen keys, terminated early). -/
def replayHistory : List Event → List String → List Event × List String × Bool
  | [], seen => ([], seen, false)
  | e :: rest, seen =>
    let seen2 := dedupKey e :: seen
    if isTerminal e then ([e], seen2, true)
    else
      let r := replayHistory rest seen2
      (e :: r.1, r.2.1, r.2.2)

/-- The live-message loop of `EventPublisher.subscribe` (events.py lines
68-79): a message whose dedup key is in `seen_ids` is skipped; otherwise it
is yielded, and a terminal message stops the loop.  `seen_ids` is never
extended here. -/
def listenLive (seen : List String) : List Event → List Event
  | [] => []
  | m :: rest =>
    if seen.contains (dedupKey m) then listenLive seen rest
    else if isTerminal m then [m]
    else m :: listenLive seen rest

/-- All events yielded by one `subscribe(job_id)` generator, given the
history snapshot read at connection time and the live messages that arrive
on the channel afterwards. -/
def subscribeYields (history live : List Event) : List Event :=
  let r := replayHistory history []
  if r.2.2 then r.1 else r.1 ++ listenLive r.2.1 live

/-- Prefix of a stream up to and including its first terminal event. -/
def untilTerminal : List Event → List Event
  | [] => []
  | e :: rest => if isTerminal e then [e] else e :: untilTerminal rest

/-- A concrete non-terminal event used in concrete instances below. -/
def tcEvent : Event := { etype := "tool_call", timestamp := 5 }

/-- A concrete status event. -/
def stEvent : Event := { etype := "status", timestamp := 1 }

/-- A concrete terminal event. -/
def cpEvent : Event := { etype := "complete", timestamp := 9 }

/-- The Redis state behind the event keys of one job: the
`event_history:<job_id>` list with its absolute expiry time, and the
`events:<job_id>` channel, modelled as the list of messages delivered to
it. -/
structure BusState where
  history : List Event
  expireAt : Nat
  channel : List Event
deriving DecidableEq, Repr

/-- The four sequential Redis calls inside `EventPublisher.publish`
(events.py lines 36-41; worker/event_publisher.py lines 26-31 is identical):
`rpush`, `ltrim`, `expire` on the history key, then `publish` on the channel. -/
inductive BusStep
  | rpushHistory
  | ltrimHistory
  | expireHistory
  | publishChannel
deriving DecidableEq, Repr

/-- `EventPublisher.publish(job_id, event)` for an already-stamped event.
The calls run in source order with no try/except around any of them, so a
failure at step `failAt` raises after the preceding steps have taken effect;
the returned `Option String` is the raised error.  `ltrim(history_key, -100,
-1)` keeps the most recent `MAX_HISTORY = 100` entries and `expire` resets
the expiry to `now + HISTORY_TTL` with `HISTORY_TTL = 300`. -/
def publishEvent (failAt : Option BusStep) (now : Nat) (s : BusState) (e : Event) :
    BusState × Option String :=
  match failAt with
  | some BusStep.rpushHistory => (s, some "history rpush failed")
  | some BusStep.ltrimHistory =>
      ({ s with history := s.history ++ [e] }, some "history ltrim failed")
  | some BusStep.expireHistory =>
      ({ s with history := takeLastN 100 (s.history ++ [e]) }, some "history expire failed")
  | some BusStep.publishChannel =>
      ({ s with history := takeLastN 100 (s.history ++ [e]), expireAt := now + 300 },
       some "channel publish failed")
  | none =>
      ({ s with history := takeLastN 100 (s.history ++ [e]), expireAt := now + 300,
                channel := s.channel ++ [e] }, none)

/-- Reading the history key at wall-clock time `t`: Redis deletes the key
once its TTL has elapsed, so the list is absent (empty) after `expireAt`. -/
def readHistoryAt (s : BusState) (t : Nat) : List Event :=
  if s.expireAt < t then [] else s.history

/-! ## Job store and queue (`backend/job_queue.py`, `worker/consumer.py`) -/

/-- The job record written by `RedisQueue.enqueue_job` and mutated by
`update_job`.  Timestamps (`datetime.utcnow().isoformat()` on the backend,
`time.strftime` in the worker) are modelled by the `now : Nat` parameter of
each operation. -/
structure Job where
  job_id : String
  query : String
  chat_id : Option String
  status : String
  result : Option String
  error : Option String
  created_at : Nat
  updated_at : Nat
deriving DecidableEq, Repr

/-- The Redis state used by the queue: the `job:<job_id>` records (an
association list where `set` prepends, so `lookup` sees the newest write)
and the `job_queue` FIFO list (`rpush` appends at the tail, `blpop` takes
from the head). -/
structure QueueState where
  jobs : List (String × Job)
  queue : List String
deriving DecidableEq, Repr

/-- The two Redis writes performed by `enqueue_job`, in order. -/
inductive RedisWrite
  | setRecord (key : String)
  | rpushQueue (id : String)
deriving DecidableEq, Repr

/-- `RedisQueue.enqueue_job(query, chat_id)` (job_queue.py lines 25-47): a
fresh `job_id` (the `uuid.uuid4()` result is a parameter), the record with
`status="queued"`, null result and error, and `created_at = updated_at =
now`, written with `set` BEFORE `rpush`-ing the id onto the queue tail.
Returns the new state, the ordered write trace, and the returned job id. -/
def enqueue_job (s : QueueState) (query : String) (chat_id : Option String)
    (job_id : String) (now : Nat) : QueueState × List RedisWrite × String :=
  let job : Job :=
    { job_id := job_id, query := query, chat_id := chat_id, status := "queued",
      result := none, error := none, created_at := now, updated_at := now }
  ({ jobs := (job_id, job) :: s.jobs, queue := s.queue ++ [job_id] },
   [RedisWrite.setRecord job_id, RedisWrite.rpushQueue job_id], job_id)

/-- `RedisQueue.update_job(job_id, status?, result?, error?)` (job_queue.py
lines 56-73): load the record; when it is absent do nothing; otherwise merge
the given fields (`if status:` is Python truthiness, so an empty string is
also skipped; `result`/`error` are compared against `None`) and refresh
`updated_at`. -/
def update_job (s : QueueState) (job_id : String) (status result error : Option String)
    (now : Nat) : QueueState :=
  match s.jobs.lookup job_id with
  | none => s
  | some job =>
      let j1 := match status with
        | some st => if st.isEmpty then job else { job with status := st }
        | none => job
      let j2 := match result with
        | some r => { j1 with result := some r }
        | none => j1
      let j3 := match error with
        | some e => { j2 with error := some e }
        | none => j2
      { s with jobs := (job_id, { j3 with updated_at := now }) :: s.jobs }

/-- `QueueConsumer.update_job(job_id, status, result?, error?)` (consumer.py
lines 39-49): same shape as the backend version but `status` is mandatory
and assigned unconditionally; a missing record is again a silent no-op. -/
def consumerUpdateJob (s : QueueState) (job_id : String) (status : String)
    (result error : Option String) (now : Nat) : QueueState :=
  match s.jobs.lookup job_id with
  | none => s
  | some job =>
      let j1 := { job with status := status }
      let j2 := match result with
        | some r => { j1 with result := some r }
        | none => j1
      let j3 := match error with
        | some e => { j2 with error := some e }
        | none => j2
      { s with jobs := (job_id, { j3 with updated_at := now }) :: s.jobs }

/-! ## Chat store (`backend/arangodb.py` chat functions,
`worker/consumer.py` transcript writes)

Chat timestamps are ISO strings in the source and stay abstract strings here. -/

/-- A transcript message.  `agents_used` models `metadata.agents_used`; the
other metadata fields (tools_called, event_history, job_id) are never read
back by the code under verification and are not modelled. -/
structure ChatMessage where
  id : String
  role : String
  content : String
  timestamp : String
  agents_used : List String := []
deriving DecidableEq, Repr

/-- The transcript JSON file `chats/<chat_id>.json`. -/
structure ChatContent where
  chat_id : String
  title : String
  created_at : String
  messages : List ChatMessage
deriving DecidableEq, Repr

/-- The chat metadata document in the `chats` Arango collection. -/
structure ChatMetadata where
  key : String
  title : String
  created_at : String
  updated_at : String
  json_path : String
  message_count : Nat
  last_message_preview : String
  agents_used : List String
deriving DecidableEq, Repr

/-- Dual storage: transcript files keyed by path, metadata records keyed by
chat id.  Writes prepend, so `lookup` sees the newest version. -/
structure ChatStore where
  files : List (String × ChatContent)
  records : List (String × ChatMetadata)
deriving DecidableEq, Repr

/-- The transcript path under CHATS_DIR: chats/ then the chat id then .json,
relative to the repository root. -/
def jsonPathOf (chat_id : String) : String := "chats/" ++ chat_id ++ ".json"

/-- The title derivation in `create_chat` (arangodb.py lines 242-246):
`if not title and initial_message:` take the first 50 characters, appending
`"..."` only when the message is longer than 50; `elif not title:` use
`"Chat "` plus the first 8 characters of the chat id. -/
def deriveTitle (title initial_message : Option String) (chat_id : String) : String :=
  let tEmpty := match title with
    | none => true
    | some t => t.isEmpty
  let mGiven := match initial_message with
    | none => false
    | some m => !m.isEmpty
  if tEmpty && mGiven then
    let m := (initial_message.getD "")
    strTake m 50 ++ (if m.length > 50 then "..." else "")
  else if tEmpty then "Chat " ++ strTake chat_id 8
  else title.getD ""

/-- `create_chat(title?, initial_message?)` (arangodb.py lines 234-287).
The generated UUID `chat_id` and message id, and the timestamp `now`, are
parameters.  The transcript file is written first; the Arango insert of the
metadata record follows with no try/except, so when it fails
(`metaWriteOk = false`) the error propagates and the file write is NOT
undone.  Returns the resulting store and the call result. -/
def create_chat (s : ChatStore) (title initial_message : Option String)
    (chat_id : String) (now : String) (msg_id : String) (metaWriteOk : Bool) :
    ChatStore × Except String ChatMetadata :=
  let t := deriveTitle title initial_message chat_id
  let path := jsonPathOf chat_id
  let msgs : List ChatMessage := match initial_message with
    | some m =>
        if m.isEmpty then []
        else [{ id := msg_id, role := "user", content := m, timestamp := now }]
    | none => []
  let content : ChatContent :=
    { chat_id := chat_id, title := t, created_at := now, messages := msgs }
  let s1 : ChatStore := { s with files := (path, content) :: s.files }
  if metaWriteOk then
    let md : ChatMetadata :=
      { key := chat_id, title := t, created_at := now, updated_at := now,
        json_path := path, message_count := msgs.length,
        last_message_preview :=
          (match initial_message with
           | some m => if m.isEmpty then "" else strTake m 100
           | none => ""),
        agents_used := [] }
    ({ s1 with records := (chat_id, md) :: s1.records }, Except.ok md)
  else (s1, Except.error "metadata write failed")

/-- `get_chat_content(chat_id)` (arangodb.py lines 302-313): `None` when the
metadata record or the transcript file is missing. -/
def get_chat_content (s : ChatStore) (chat_id : String) : Option ChatContent :=
  match s.records.lookup chat_id with
  | none => none
  | some md => s.files.lookup md.json_path

/-- The agents-used aggregation in `save_chat_content` (arangodb.py lines
337-340): the union over all messages of `metadata.agents_used`.  Python
collects them in a `set` whose iteration order is unspecified; the model
keeps first-occurrence order, which has the same membership. -/
def collectAgents (msgs : List ChatMessage) : List String :=
  (msgs.foldr (fun m acc => m.agents_used ++ acc) []).dedup

/-- `save_chat_content(chat_id, content)` (arangodb.py lines 316-354):
require the metadata record; rewrite the transcript file at its
`json_path`; then update the metadata with refreshed `updated_at`,
`message_count = len(messages)`, `last_message_preview =
last_message["content"][:100]` (empty when no messages), the recomputed
agents set, and the content title when non-empty. -/
def save_chat_content (s : ChatStore) (chat_id : String) (content : ChatContent)
    (now : String) : Except String ChatStore :=
  match s.records.lookup chat_id with
  | none => Except.error ("Chat " ++ chat_id ++ " not found")
  | some md =>
      let s1 : ChatStore := { s with files := (md.json_path, content) :: s.files }
      let msgs := content.messages
      let md2 : ChatMetadata :=
        { md with
          updated_at := now,
          message_count := msgs.length,
          last_message_preview :=
            (match msgs.getLast? with
             | some last => strTake last.content 100
             | none => ""),
          agents_used := collectAgents msgs,
          title := if content.title.isEmpty then md.title else content.title }
      Except.ok { s1 with records := (chat_id, md2) :: s1.records }

/-- `add_message_to_chat(chat_id, message)` (arangodb.py lines 357-372):
load the content (record and file both required), append the message (its id
and timestamp are assumed already stamped), and run `save_chat_content`. -/
def add_message_to_chat (s : ChatStore) (chat_id : String) (msg : ChatMessage)
    (now : String) : Except String ChatStore :=
  match get_chat_content s chat_id with
  | none => Except.error ("Chat " ++ chat_id ++ " not found")
  | some content =>
      save_chat_content s chat_id { content with messages := content.messages ++ [msg] } now

/-- `QueueConsumer.save_response_to_chat` (consumer.py lines 69-125): when a
chat id is given and the transcript file exists, append the system message
(id `msg_<job_id>`, role `system`) to the JSON file and rewrite it.  The
Arango metadata record is never touched by this function. -/
def save_response_to_chat (s : ChatStore) (chat_id job_id : String)
    (response_text : String) (agents : List String) (now : String) : ChatStore :=
  if chat_id.isEmpty then s
  else
    match s.files.lookup (jsonPathOf chat_id) with
    | none => s
    | some content =>
        let sysMsg : ChatMessage :=
          { id := "msg_" ++ job_id, role := "system", content := response_text,
            timestamp := now, agents_used := agents }
        { s with files :=
            (jsonPathOf chat_id, { content with messages := content.messages ++ [sysMsg] })
            :: s.files }

/-- The transcript/metadata consistency check of spec property 4, evaluated
on a store: whenever chat `chat_id` has a metadata record and its transcript
file exists, `message_count` equals the transcript length and
`last_message_preview` is the first 100 characters of the last message. -/
def chatConsistentB (s : ChatStore) (chat_id : String) : Bool :=
  match s.records.lookup chat_id with
  | none => true
  | some md =>
      match s.files.lookup md.json_path with
      | none => true
      | some c =>
          md.message_count == c.messages.length &&
          (match c.messages.getLast? with
           | none => true
           | some last => md.last_message_preview == strTake last.content 100)

/-! ## Agent runner (`worker/opencode_runner.py`) -/

/-- The per-message truncation in `_format_chat_history` (opencode_runner.py
lines 69-71): contents longer than 500 characters are cut and get `"..."`. -/
def truncateHistoryContent (content : String) : String :=
  if content.length > 500 then strTake content 500 ++ "..." else content

/-- `"User" if msg.get("role") == "user" else "Assistant"`. -/
def roleLabelOf (role : String) : String := if role == "user" then "User" else "Assistant"

/-- `OpenCodeRunner._format_chat_history(messages)` (opencode_runner.py lines
57-75): empty input gives the empty string; otherwise the last 10 messages
are appended one paragraph at a time under the fixed header, followed by a
separator. -/
def format_chat_history (messages : List ChatMessage) : String :=
  if messages.isEmpty then ""
  else
    let recent := takeLastN 10 messages
    let formatted := recent.foldl
      (fun acc m =>
        acc ++ "**" ++ roleLabelOf m.role ++ "**: " ++ truncateHistoryContent m.content ++ "\n\n")
      "## Previous Conversation Context\n\n"
    formatted ++ "---\n\n"

/-- `OpenCodeRunner.build_prompt(query, chat_history)` (opencode_runner.py
lines 38-55).  `router` is the text of `<config>/agents/router.md` when that
file exists (`none` when it does not); a non-empty text is stripped and
suffixed with a blank line before being prepended. -/
def build_prompt (router : Option String) (query : String)
    (chat_history : List ChatMessage) : String :=
  let history_context := if chat_history.isEmpty then "" else format_chat_history chat_history
  let ri0 := match router with
    | none => ""
    | some t => t
  let ri := if ri0.isEmpty then "" else trimStr ri0 ++ "\n\n"
  ri ++ history_context ++ "Current Query:\n" ++ query ++
    "\n\nReturn the delegated agent\x27s response to the user."

/-- One rendered history paragraph as the specification describes it:
a `**User**: ` or `**Assistant**: ` line with the content truncated to 500
characters (`"..."` appended when longer) and a blank line after it. -/
def historyParagraph (m : ChatMessage) : String :=
  "**" ++ (if m.role == "user" then "User" else "Assistant") ++ "**: " ++
    (if m.content.length > 500 then strTake m.content 500 ++ "..." else m.content) ++ "\n\n"

/-- Concatenation of the rendered paragraphs of a message list. -/
def joinParagraphs : List ChatMessage → String
  | [] => ""
  | m :: rest => historyParagraph m ++ joinParagraphs rest

/-- The history block as the specification describes it: for a non-empty
history, the fixed header, then one paragraph per message of exactly the
last 10 messages, then the separator. -/
def specHistoryBlock (messages : List ChatMessage) : String :=
  match messages with
  | [] => ""
  | _ :: _ =>
      "## Previous Conversation Context\n\n" ++ joinParagraphs (takeLastN 10 messages) ++
        "---\n\n"

/-- The whole prompt as the specification describes it: router instructions
(stripped, with a blank line, when the file exists and is non-empty), the
history block, then `Current Query:`, a newline, the query, a blank line and
the closing instruction. -/
def specPrompt (router : Option String) (query : String)
    (messages : List ChatMessage) : String :=
  (match router with
   | none => ""
   | some t => if t.isEmpty then "" else trimStr t ++ "\n\n")
  ++ specHistoryBlock messages
  ++ "Current Query:\n" ++ query ++
    "\n\nReturn the delegated agent\x27s response to the user."

/-- A structured line of the child stdout stream as `json.loads` sees it:
`type` plus the string-valued fields the result capture reads (nested
`part.text` is flattened to the key `"part.text"`).  Python `or`-chains
treat an empty string as absent, hence the emptiness filter in `get`. -/
structure OCEvent where
  etype : String
  fields : List (String × String)
deriving DecidableEq, Repr

def OCEvent.get (e : OCEvent) (k : String) : Option String :=
  match e.fields.lookup k with
  | none => none
  | some v => if v.isEmpty then none else some v

/-- One stdout line of the agent child process: either text that fails
`json.loads`, or a line that decodes to `OCEvent e`; both carry the raw
line text. -/
inductive OCLine
  | raw (s : String)
  | json (s : String) (e : OCEvent)
deriving DecidableEq, Repr

def lineText : OCLine → String
  | OCLine.raw s => s
  | OCLine.json s _ => s

/-- The `final_result` candidate tracked by `OpenCodeRunner.run`: a bare
value from a `result` event, a `response`-wrapped text, a whole event dict,
or the fallback status/output dict built on clean exit with no result. -/
inductive FinalResult
  | value (s : String)
  | respText (s : String)
  | whole (e : OCEvent)
  | outputDump (lines : List String)
deriving DecidableEq, Repr

/-- One iteration of the stream-parsing loop of `OpenCodeRunner.run`
(opencode_runner.py lines 131-168), restricted to its effect on the
`final_result` candidate, `all_output`, and the events it publishes itself
(the status publish of the JSON-decode-failure branch); the re-publications
done by `_handle_event` do not feed back into this state and are not
modelled.  Published events are `(type, message)` pairs.  The loop strips
each line and skips empty ones. -/
def stepLine (st : Option FinalResult × List String × List (String × String))
    (l : OCLine) : Option FinalResult × List String × List (String × String) :=
  let line := trimStr (lineText l)
  if line.isEmpty then st
  else
    let allOut := st.2.1 ++ [line]
    match l with
    | OCLine.json _ e =>
        let fr :=
          if e.etype == "result" then
            match e.get "data" with
            | some s => some (FinalResult.value s)
            | none =>
                match e.get "content" with
                | some s => some (FinalResult.value s)
                | none => some (FinalResult.whole e)
          else if e.etype == "text" then
            match e.get "part.text" <|> e.get "text" <|> e.get "content" with
            | some s => some (FinalResult.respText s)
            | none => st.1
          else if e.etype == "message" then
            match e.get "content" <|> e.get "text" <|> e.get "message" with
            | some s => some (FinalResult.respText s)
            | none => st.1
          else
            match e.get "response" with
            | some s => some (FinalResult.respText s)
            | none => st.1
        (fr, allOut, st.2.2)
    | OCLine.raw _ =>
        let pubs := st.2.2 ++ [("status", line)]
        let fr := if line.length > 50 then some (FinalResult.respText line) else st.1
        (fr, allOut, pubs)

/-- The non-empty stripped lines of the stream, i.e. the `all_output` list
accumulated by the loop. -/
def allOutputOf (lines : List OCLine) : List String :=
  (lines.map (fun l => trimStr (lineText l))).filter (fun s => !s.isEmpty)

/-- `OpenCodeRunner.run` (opencode_runner.py lines 77-201) for a child that
emitted `lines` and exited with `exitCode`.  The opening status publish, the
parse loop, the nonzero-exit check raising `OpenCode failed: <tail of the
last 200 output lines>` (or `unknown error` when there was no output), and
the clean-exit result synthesis are modelled; trace-file mirroring, output
relocation and the `_metadata` enrichment are filesystem side channels no
claim depends on.  Returns the run outcome and the events the runner
published. -/
def runnerRun (lines : List OCLine) (exitCode : Nat) :
    Except String FinalResult × List (String × String) :=
  let st := lines.foldl stepLine (none, [], [("status", "Starting OpenCode processing...")])
  if exitCode ≠ 0 then
    let errorOutput :=
      if st.2.1.isEmpty then "" else String.intercalate "\n" (takeLastN 200 st.2.1)
    (Except.error
       ("OpenCode failed: " ++ (if errorOutput.isEmpty then "unknown error" else errorOutput)),
     st.2.2)
  else
    let fr := match st.1 with
      | some r => r
      | none => if st.2.1.isEmpty then FinalResult.outputDump [] else
          FinalResult.respText (String.intercalate "\n" st.2.1)
    (Except.ok fr, st.2.2)

/-- Placeholder rendering of `json.dumps` on an event dict; only its use as
an abstract string matters to the claims. -/
def dumpEvent (e : OCEvent) : String :=
  e.etype ++ ":" ++ String.intercalate "," (e.fields.map (fun p => p.1 ++ "=" ++ p.2))

/-- Opaque serialization of the result payload as stored in the job record
and carried by the `complete` event. -/
def encodeResult : FinalResult → String
  | FinalResult.value s => s
  | FinalResult.respText s => "response=" ++ s
  | FinalResult.whole e => dumpEvent e
  | FinalResult.outputDump ls => "status=completed,output=" ++ String.intercalate "\n" ls

/-- The response-text extraction of `save_response_to_chat` (consumer.py
lines 84-88): `response.get("response", response.get("text",
json.dumps(response)))` for dicts — plain key presence, no truthiness —
and `str(response)` otherwise. -/
def responseText : FinalResult → String
  | FinalResult.respText s => s
  | FinalResult.value s => s
  | FinalResult.whole e =>
      match e.fields.lookup "response" with
      | some s => s
      | none =>
          match e.fields.lookup "text" with
          | some s => s
          | none => dumpEvent e
  | FinalResult.outputDump ls => "status=completed,output=" ++ String.intercalate "\n" ls

/-- `QueueConsumer.process_job(job_id)` (consumer.py lines 127-170) driven
by the child behaviour `(lines, exitCode)`.  A missing record logs and
returns.  Otherwise: mark processing and publish the status event, run the
runner, and either mark completed, publish `complete` and append the system
message to the chat transcript, or — when the runner raised — mark failed
with the error message and publish an `error` event.  The enclosing
try/except makes the function total: the worker loop never crashes on a
runner failure. -/
def process_job (s : QueueState) (chats : ChatStore) (pubs : List (String × String))
    (job_id : String) (lines : List OCLine) (exitCode : Nat) (now : Nat) (nowStr : String) :
    QueueState × ChatStore × List (String × String) :=
  match s.jobs.lookup job_id with
  | none => (s, chats, pubs)
  | some job =>
      let s1 := consumerUpdateJob s job_id "processing" none none now
      let pubs1 := pubs ++ [("status", "Processing query...")]
      let r := runnerRun lines exitCode
      match r.1 with
      | Except.ok result =>
          let s2 := consumerUpdateJob s1 job_id "completed" (some (encodeResult result)) none now
          let chats2 := match job.chat_id with
            | some cid => save_response_to_chat chats cid job_id (responseText result) [] nowStr
            | none => chats
          (s2, chats2, pubs1 ++ r.2 ++ [("complete", encodeResult result)])
      | Except.error e =>
          let s2 := consumerUpdateJob s1 job_id "failed" none (some e) now
          (s2, chats, pubs1 ++ r.2 ++ [("error", e)])

/-! ## Helper lemmas -/

theorem takeLastN_length_le (n : Nat) (l : List α) : (takeLastN n l).length ≤ n := by
  simp only [takeLastN, List.length_drop]
  omega

theorem takeLastN_append_of_length (l1 l2 : List α) (n : Nat) (h : l2.length = n) :
    takeLastN n (l1 ++ l2) = l2 := by
  subst h
  simp only [takeLastN, List.length_append]
  have : l1.length + l2.length - l2.length = l1.length := by omega
  rw [this, List.drop_left]

theorem replayHistory_no_terminal (history : List Event) (seen : List String)
    (h : ∀ e ∈ history, isTerminal e = false) :
    replayHistory history seen = (history, (history.map dedupKey).reverse ++ seen, false) := by
  induction history generalizing seen with
  | nil => simp [replayHistory]
  | cons e rest ih =>
    have he : isTerminal e = false := h e (by simp)
    have hrest : ∀ x ∈ rest, isTerminal x = false := fun x hx => h x (by simp [hx])
    simp [replayHistory, he, ih (dedupKey e :: seen) hrest, List.append_assoc]

theorem listenLive_eq_untilTerminal_filter (seen : List String) (live : List Event) :
    listenLive seen live = untilTerminal (live.filter (fun m => !seen.contains (dedupKey m))) := by
  induction live with
  | nil => simp [listenLive, untilTerminal]
  | cons m rest ih =>
    by_cases hc : dedupKey m ∈ seen
    · simp [listenLive, hc, ih]
    · by_cases ht : isTerminal m = true
      · simp [listenLive, hc, ht, untilTerminal]
      · have ht2 : isTerminal m = false := by
          revert ht; cases isTerminal m <;> simp
        simp [listenLive, hc, ht2, untilTerminal, ih]

theorem contains_reverse (l : List String) (k : String) :
    (l.reverse).contains k = l.contains k := by
  by_cases h : k ∈ l
  · have h1 : l.contains k = true := by simpa [List.contains]
    have h2 : (l.reverse).contains k = true := by simpa [List.contains]
    rw [h1, h2]
  · have h1 : l.contains k = false := by simpa [List.contains]
    have h2 : (l.reverse).contains k = false := by simpa [List.contains]
    rw [h1, h2]

/-! ## Claim C1 -/

/-- C1, counterexample: the claim says an event published twice with
identical type and timestamp after the subscriber has connected is yielded
exactly once.  With empty history at connection time, both copies arrive on
the live channel, and since `seen_ids` is only populated during history
replay, the subscriber yields the duplicate twice. -/
theorem C1_live_duplicate_yielded_twice :
    subscribeYields [] [tcEvent, tcEvent] = [tcEvent, tcEvent] ∧
    (subscribeYields [] [tcEvent, tcEvent]).count tcEvent = 2 := by decide

/-- C1, amended: deduplication applies only between the history replay and
the live channel.  When the replayed history contains no terminal event, the
subscriber yields every history entry (duplicates included), and then
exactly those live messages — up to and including the first terminal one —
whose dedup key did not occur in the history; live duplicates of a key
absent from history are each yielded. -/
theorem C1_dedup_between_history_and_live_only (history live : List Event)
    (hnt : ∀ e ∈ history, isTerminal e = false) :
    subscribeYields history live =
      history ++ untilTerminal
        (live.filter (fun m => !(history.map dedupKey).contains (dedupKey m))) := by
  have h1 := replayHistory_no_terminal history [] hnt
  have h2 : ∀ m ∈ live,
      (!((history.map dedupKey).reverse ++ []).contains (dedupKey m)) =
      (!(history.map dedupKey).contains (dedupKey m)) := by
    intro m _
    rw [List.append_nil, contains_reverse]
  simp only [subscribeYields, h1, Bool.false_eq_true, if_false]
  rw [listenLive_eq_untilTerminal_filter, List.filter_congr h2]

/-- C1, witness: one status event in history, then a duplicated live
tool_call and a live complete; the amended theorem applies and the history
copy suppresses nothing here except keys seen in history. -/
theorem C1_dedup_between_history_and_live_only_witness :
    (∀ e ∈ [stEvent], isTerminal e = false) ∧
    subscribeYields [stEvent] [tcEvent, tcEvent, cpEvent] =
      [stEvent] ++ untilTerminal
        (([tcEvent, tcEvent, cpEvent]).filter
          (fun m => !(([stEvent]).map dedupKey).contains (dedupKey m))) :=
  ⟨by decide,
   C1_dedup_between_history_and_live_only [stEvent] [tcEvent, tcEvent, cpEvent] (by decide)⟩

/-! ## Claim C3 -/

/-- C3, counterexample: the claim says a failure of the history write does
not prevent the live publish.  `publish` has no try/except: when `rpush`
raises, the function aborts with the error and the live channel never
receives the event. -/
theorem C3_history_failure_blocks_live_publish :
    (publishEvent (some BusStep.rpushHistory) 7 ⟨[], 0, []⟩ tcEvent).1.channel = [] ∧
    (publishEvent (some BusStep.rpushHistory) 7 ⟨[], 0, []⟩ tcEvent).2 =
      some "history rpush failed" := by decide

/-- C3, amended: the history write precedes the live publish with no error
handling, so a failure at any of the three history steps (`rpush`, `ltrim`,
`expire`) propagates and the event does not reach the live channel; only a
fully successful history write is followed by the live publish. -/
theorem C3_live_publish_only_after_history (now : Nat) (s : BusState) (e : Event) :
    ((publishEvent (some BusStep.rpushHistory) now s e).1.channel = s.channel ∧
      (publishEvent (some BusStep.rpushHistory) now s e).2.isSome = true) ∧
    ((publishEvent (some BusStep.ltrimHistory) now s e).1.channel = s.channel ∧
      (publishEvent (some BusStep.ltrimHistory) now s e).2.isSome = true) ∧
    ((publishEvent (some BusStep.expireHistory) now s e).1.channel = s.channel ∧
      (publishEvent (some BusStep.expireHistory) now s e).2.isSome = true) ∧
    ((publishEvent none now s e).1.channel = s.channel ++ [e] ∧
      (publishEvent none now s e).2 = none) := by
  simp [publishEvent]

/-! ## Claim C9 -/

/-- C9: every successful publish leaves the history trimmed to the most
recent 100 entries (so its length never exceeds 100) and resets the expiry
to 300 seconds from the publish time, so the history reads as absent at any
time more than 300 seconds after the last write. -/
theorem C9_history_bounded_and_expiring (now : Nat) (s : BusState) (e : Event) :
    (publishEvent none now s e).1.history = takeLastN 100 (s.history ++ [e]) ∧
    (publishEvent none now s e).1.history.length ≤ 100 ∧
    ∀ t : Nat, now + 300 < t → readHistoryAt (publishEvent none now s e).1 t = [] := by
  refine ⟨rfl, ?_, ?_⟩
  · simpa [publishEvent] using takeLastN_length_le 100 (s.history ++ [e])
  · intro t ht
    simp [publishEvent, readHistoryAt, ht]

/-- C9, witness: a publish at time 0 into an empty history; at time 301 the
history is absent. -/
theorem C9_history_bounded_and_expiring_witness :
    (publishEvent none 0 ⟨[], 0, []⟩ tcEvent).1.history = takeLastN 100 ([] ++ [tcEvent]) ∧
    (publishEvent none 0 ⟨[], 0, []⟩ tcEvent).1.history.length ≤ 100 ∧
    (0 + 300 < 301 ∧ readHistoryAt (publishEvent none 0 ⟨[], 0, []⟩ tcEvent).1 301 = []) :=
  ⟨(C9_history_bounded_and_expiring 0 ⟨[], 0, []⟩ tcEvent).1,
   (C9_history_bounded_and_expiring 0 ⟨[], 0, []⟩ tcEvent).2.1,
   by decide,
   (C9_history_bounded_and_expiring 0 ⟨[], 0, []⟩ tcEvent).2.2 301 (by decide)⟩

/-! ## Claim C5 -/

/-- C5: `enqueue_job` returns the allocated job id, performs the record
write before the queue push, writes the record with status `queued`, null
result and error, and `created_at = updated_at = now`, appends the id at the
queue tail, and preserves the invariant that every id in the queue has a
record — so a worker popping any id always finds the record. -/
theorem C5_enqueue_record_before_push (s : QueueState) (q : String) (c : Option String)
    (id : String) (now : Nat)
    (hinv : ∀ j ∈ s.queue, (s.jobs.lookup j).isSome = true) :
    (enqueue_job s q c id now).2.2 = id ∧
    (enqueue_job s q c id now).2.1 = [RedisWrite.setRecord id, RedisWrite.rpushQueue id] ∧
    (enqueue_job s q c id now).1.jobs.lookup id =
      some { job_id := id, query := q, chat_id := c, status := "queued",
             result := none, error := none, created_at := now, updated_at := now } ∧
    (enqueue_job s q c id now).1.queue = s.queue ++ [id] ∧
    ∀ j ∈ (enqueue_job s q c id now).1.queue,
      ((enqueue_job s q c id now).1.jobs.lookup j).isSome = true := by
  refine ⟨rfl, rfl, by simp [enqueue_job, List.lookup], rfl, ?_⟩
  intro j hj
  simp only [enqueue_job] at hj ⊢
  rcases List.mem_append.mp hj with h | h
  · by_cases he : j = id
    · subst he; simp [List.lookup]
    · have hne : (j == id) = false := by simpa using he
      have := hinv j h
      simpa [List.lookup, hne] using this
  · have : j = id := by simpa using h
    subst this; simp [List.lookup]

/-- C5, witness: enqueueing into a state holding one already-queued job. -/
theorem C5_enqueue_record_before_push_witness :
    (enqueue_job ⟨[("a", ⟨"a", "q0", none, "queued", none, none, 0, 0⟩)], ["a"]⟩
        "what is revenue" none "b" 3).1.queue = ["a", "b"] ∧
    ∀ j ∈ (enqueue_job ⟨[("a", ⟨"a", "q0", none, "queued", none, none, 0, 0⟩)], ["a"]⟩
        "what is revenue" none "b" 3).1.queue,
      ((enqueue_job ⟨[("a", ⟨"a", "q0", none, "queued", none, none, 0, 0⟩)], ["a"]⟩
          "what is revenue" none "b" 3).1.jobs.lookup j).isSome = true := by
  have h := C5_enqueue_record_before_push
    ⟨[("a", ⟨"a", "q0", none, "queued", none, none, 0, 0⟩)], ["a"]⟩
    "what is revenue" none "b" 3 (by decide)
  exact ⟨h.2.2.2.1, h.2.2.2.2⟩

/-! ## Claim C10 -/

/-- C10: updating a job id with no record is a silent no-op in both the
backend `update_job` and the worker `QueueConsumer.update_job`: no error, no
record created, the store unchanged. -/
theorem C10_update_missing_job_is_noop (s : QueueState) (job_id : String)
    (st res err : Option String) (st2 : String) (now : Nat)
    (h : s.jobs.lookup job_id = none) :
    update_job s job_id st res err now = s ∧
    consumerUpdateJob s job_id st2 res err now = s := by
  constructor <;> simp [update_job, consumerUpdateJob, h]

/-- C10, witness: updating an id absent from a store holding one other job
leaves the store unchanged, in both variants. -/
theorem C10_update_missing_job_is_noop_witness :
    ((⟨[("a", ⟨"a", "q0", none, "queued", none, none, 0, 0⟩)], []⟩ : QueueState).jobs.lookup
        "zzz" = none) ∧
    update_job ⟨[("a", ⟨"a", "q0", none, "queued", none, none, 0, 0⟩)], []⟩ "zzz"
        (some "failed") none none 9 =
      ⟨[("a", ⟨"a", "q0", none, "queued", none, none, 0, 0⟩)], []⟩ ∧
    consumerUpdateJob ⟨[("a", ⟨"a", "q0", none, "queued", none, none, 0, 0⟩)], []⟩ "zzz"
        "failed" none none 9 =
      ⟨[("a", ⟨"a", "q0", none, "queued", none, none, 0, 0⟩)], []⟩ :=
  ⟨by decide,
   (C10_update_missing_job_is_noop _ "zzz" (some "failed") none none "failed" 9 (by decide)).1,
   (C10_update_missing_job_is_noop _ "zzz" (some "failed") none none "failed" 9 (by decide)).2⟩

/-! ## Claim C4 -/

/-- C4, counterexample: the claim says a failed metadata write deletes the
transcript file so a file never exists without its record.  `create_chat`
writes the file, then inserts the metadata with no try/except and no
compensating delete: after a failed insert the file for chat `c4` exists
while its record is absent. -/
theorem C4_no_compensating_delete :
    ((create_chat ⟨[], []⟩ none (some "hi") "c4" "t0" "m1" false).1.files.lookup
        (jsonPathOf "c4")).isSome = true ∧
    (create_chat ⟨[], []⟩ none (some "hi") "c4" "t0" "m1" false).1.records.lookup "c4" = none ∧
    (create_chat ⟨[], []⟩ none (some "hi") "c4" "t0" "m1" false).2.toOption = none := by decide

/-- C4, amended: when the metadata write fails during chat creation the
error propagates and the already-written transcript file is left in place
(records untouched, no compensating delete), so creation can leave a
transcript file without a metadata record; on success both the file and the
record exist. -/
theorem C4_create_chat_failure_leaves_file (s : ChatStore) (title im : Option String)
    (cid now mid : String) :
    ((create_chat s title im cid now mid false).1.files.lookup (jsonPathOf cid)).isSome = true ∧
    (create_chat s title im cid now mid false).1.records = s.records ∧
    (create_chat s title im cid now mid false).2.toOption = none ∧
    ((create_chat s title im cid now mid true).1.files.lookup (jsonPathOf cid)).isSome = true ∧
    ((create_chat s title im cid now mid true).1.records.lookup cid).isSome = true := by
  refine ⟨?_, rfl, rfl, ?_, ?_⟩ <;> simp [create_chat, List.lookup]

/-! ## Claim C8 -/

/-- C8, counterexample: the claim says a derived title is the first 50
characters of the initial message plus an ellipsis whenever an initial
message is given.  For the 20-character message of scenario S2 the code
returns the message itself, with no ellipsis appended. -/
theorem C8_short_message_gets_no_ellipsis :
    ((create_chat ⟨[], []⟩ none (some "revenue of TCS FY24?") "cid0" "t0" "m1" true).2.toOption.map
        ChatMetadata.title) = some "revenue of TCS FY24?" ∧
    "revenue of TCS FY24?" ≠ strTake "revenue of TCS FY24?" 50 ++ "..." := by decide

/-- C8, amended: with no explicit title, the derived title is the first 50
characters of the initial message with `"..."` appended only when the
message is longer than 50 characters; with no initial message it is
`"Chat "` followed by the first 8 characters of the chat id. -/
theorem C8_title_derivation (s : ChatStore) (cid now mid m : String)
    (hm : m.isEmpty = false) :
    (∃ md, (create_chat s none (some m) cid now mid true).2 = Except.ok md ∧
        md.title = strTake m 50 ++ (if m.length > 50 then "..." else "")) ∧
    (∃ md2, (create_chat s none none cid now mid true).2 = Except.ok md2 ∧
        md2.title = "Chat " ++ strTake cid 8) := by
  constructor
  · refine ⟨_, rfl, ?_⟩
    simp [create_chat, deriveTitle, hm]
  · refine ⟨_, rfl, ?_⟩
    simp [create_chat, deriveTitle]

/-- C8, witness: scenario S2 — creating a chat with initial message
`revenue of TCS FY24?` yields exactly that title. -/
theorem C8_title_derivation_witness :
    ("revenue of TCS FY24?".isEmpty = false) ∧
    (∃ md, (create_chat ⟨[], []⟩ none (some "revenue of TCS FY24?") "cid1" "t0" "m1" true).2 =
        Except.ok md ∧ md.title = "revenue of TCS FY24?") := by
  have h := (C8_title_derivation ⟨[], []⟩ "cid1" "t0" "m1" "revenue of TCS FY24?" (by decide)).1
  refine ⟨by decide, ?_⟩
  obtain ⟨md, heq, htitle⟩ := h
  exact ⟨md, heq, by rw [htitle]; decide⟩

/-! ## Claim C2 -/

/-- C2, counterexample: the claim includes the worker appending the system
response among the operations after which metadata matches the transcript.
After `create_chat` the store is consistent, but the worker
`save_response_to_chat` rewrites only the transcript file and never updates
the metadata record, so `message_count` (still 1) no longer equals the
transcript length (2). -/
theorem C2_worker_append_breaks_consistency :
    chatConsistentB (create_chat ⟨[], []⟩ none (some "hi") "c1" "t0" "m1" true).1 "c1" = true ∧
    chatConsistentB
      (save_response_to_chat (create_chat ⟨[], []⟩ none (some "hi") "c1" "t0" "m1" true).1
        "c1" "j1" "the answer" [] "t1") "c1" = false := by decide

/-- C2, amended: the transcript/metadata consistency
(`message_count = len(messages)` and `last_message_preview` = first 100
characters of the last message) holds after a successful `create_chat` and
after a successful `add_message_to_chat`; the worker
`save_response_to_chat`, however, leaves the metadata records entirely
unchanged while extending the transcript, so metadata may lag the
transcript after the worker appends the system response. -/
theorem C2_consistency_backend_ops_only :
    (∀ (s : ChatStore) (title im : Option String) (cid now mid : String),
        chatConsistentB (create_chat s title im cid now mid true).1 cid = true) ∧
    (∀ (s : ChatStore) (cid : String) (msg : ChatMessage) (now : String) (s2 : ChatStore),
        (add_message_to_chat s cid msg now).toOption = some s2 →
        chatConsistentB s2 cid = true) ∧
    (∀ (s : ChatStore) (cid jid resp : String) (agents : List String) (now : String),
        (save_response_to_chat s cid jid resp agents now).records = s.records) := by
  refine ⟨?_, ?_, ?_⟩
  · intro s title im cid now mid
    cases im with
    | none => simp [create_chat, chatConsistentB, List.lookup]
    | some m =>
        by_cases hm : m.isEmpty <;>
          simp [create_chat, chatConsistentB, List.lookup, hm]
  · intro s cid msg now s2 h
    cases hrec : s.records.lookup cid with
    | none =>
        simp [add_message_to_chat, get_chat_content, hrec, Except.toOption] at h
    | some md =>
        cases hfile : s.files.lookup md.json_path with
        | none =>
            simp [add_message_to_chat, get_chat_content, hrec, hfile, Except.toOption] at h
        | some content =>
            simp only [add_message_to_chat, get_chat_content, hrec, hfile,
              save_chat_content, Except.toOption, Option.some.injEq] at h
            subst h
            simp [chatConsistentB, List.lookup]
  · intro s cid jid resp agents now
    unfold save_response_to_chat
    by_cases h : cid.isEmpty
    · simp [h]
    · simp only [h]
      cases hf : s.files.lookup (jsonPathOf cid) <;> simp [hf]

/-- C2, witness: a store with one consistent chat; appending a user message
through the backend keeps it consistent. -/
theorem C2_consistency_backend_ops_only_witness :
    ((add_message_to_chat
        ⟨[("chats/c1.json", ⟨"c1", "T", "t0", []⟩)],
         [("c1", ⟨"c1", "T", "t0", "t0", "chats/c1.json", 0, "", []⟩)]⟩
        "c1" ⟨"m1", "user", "hi", "t1", []⟩ "t2").toOption =
      some ⟨[("chats/c1.json", ⟨"c1", "T", "t0", [⟨"m1", "user", "hi", "t1", []⟩]⟩),
             ("chats/c1.json", ⟨"c1", "T", "t0", []⟩)],
            [("c1", ⟨"c1", "T", "t0", "t2", "chats/c1.json", 1, "hi", []⟩),
             ("c1", ⟨"c1", "T", "t0", "t0", "chats/c1.json", 0, "", []⟩)]⟩) ∧
    chatConsistentB
      ⟨[("chats/c1.json", ⟨"c1", "T", "t0", [⟨"m1", "user", "hi", "t1", []⟩]⟩),
        ("chats/c1.json", ⟨"c1", "T", "t0", []⟩)],
       [("c1", ⟨"c1", "T", "t0", "t2", "chats/c1.json", 1, "hi", []⟩),
        ("c1", ⟨"c1", "T", "t0", "t0", "chats/c1.json", 0, "", []⟩)]⟩ "c1" = true :=
  ⟨by decide,
   C2_consistency_backend_ops_only.2.1
     ⟨[("chats/c1.json", ⟨"c1", "T", "t0", []⟩)],
      [("c1", ⟨"c1", "T", "t0", "t0", "chats/c1.json", 0, "", []⟩)]⟩
     "c1" ⟨"m1", "user", "hi", "t1", []⟩ "t2" _ (by decide)⟩

/-! ## Claim C6 -/

theorem foldl_paragraphs (l : List ChatMessage) (init : String) :
    l.foldl
      (fun acc m =>
        acc ++ "**" ++ roleLabelOf m.role ++ "**: " ++ truncateHistoryContent m.content ++ "\n\n")
      init = init ++ joinParagraphs l := by
  induction l generalizing init with
  | nil => simp [joinParagraphs]
  | cons m rest ih =>
      simp only [List.foldl_cons, joinParagraphs, ih]
      simp [historyParagraph, roleLabelOf, truncateHistoryContent, String.append_assoc]

theorem format_chat_history_eq_spec (messages : List ChatMessage) :
    format_chat_history messages = specHistoryBlock messages := by
  cases messages with
  | nil => simp [format_chat_history, specHistoryBlock]
  | cons m rest =>
      simp only [format_chat_history, specHistoryBlock, List.isEmpty_cons, Bool.false_eq_true,
        if_false]
      rw [foldl_paragraphs]

/-- C6: `build_prompt` produces exactly the specified concatenation — the
router instructions (stripped, when the file exists and is non-empty), the
history block rendering exactly the last 10 messages as `**User**:` /
`**Assistant**:` paragraphs with 500-character truncation under the fixed
header, then `Current Query:`, a newline, the query, a blank line and the
closing instruction.  Consequently the prompt depends only on the last 10
messages of the history. -/
theorem C6_build_prompt_assembly (router : Option String) (query : String)
    (history : List ChatMessage) :
    build_prompt router query history = specPrompt router query history ∧
    ∀ (pre post : List ChatMessage), post.length = 10 →
      build_prompt router query (pre ++ post) = build_prompt router query post := by
  constructor
  · have hist : (if history.isEmpty then "" else format_chat_history history) =
        specHistoryBlock history := by
      cases history with
      | nil => simp [specHistoryBlock]
      | cons m rest => simp [format_chat_history_eq_spec]
    have hrt : (if (match router with | none => "" | some t => t).isEmpty then ""
                else trimStr (match router with | none => "" | some t => t) ++ "\n\n") =
               (match router with
                | none => ""
                | some t => if t.isEmpty then "" else trimStr t ++ "\n\n") := by
      cases router with
      | none => decide
      | some t => rfl
    simp only [build_prompt, specPrompt, hist, hrt]
  · intro pre post hlen
    have hpost : post ≠ [] := by
      intro hnil
      rw [hnil] at hlen
      simp at hlen
    have happ : pre ++ post ≠ [] := by
      intro hnil
      rcases List.append_eq_nil.mp hnil with ⟨-, h2⟩
      exact hpost h2
    have hfc : format_chat_history (pre ++ post) = format_chat_history post := by
      unfold format_chat_history
      rw [List.isEmpty_eq_false_iff_exists_mem.mpr, List.isEmpty_eq_false_iff_exists_mem.mpr]
      · rw [takeLastN_append_of_length pre post 10 hlen]
        have : takeLastN 10 post = post := by
          simp [takeLastN, hlen]
        rw [this]
      · cases post with
        | nil => exact absurd rfl hpost
        | cons p ps => exact ⟨p, by simp⟩
      · cases post with
        | nil => exact absurd rfl hpost
        | cons p ps => exact ⟨p, by simp [List.mem_append]⟩
    have h1 : (pre ++ post).isEmpty = false := by
      cases hp : pre ++ post with
      | nil => exact absurd hp happ
      | cons a l => simp
    have h2 : post.isEmpty = false := by
      cases hp : post with
      | nil => exact absurd hp hpost
      | cons a l => simp
    simp only [build_prompt, h1, h2, Bool.false_eq_true, if_false, hfc]

/-- C6, witness: a prompt over eleven messages equals the prompt over its
last ten. -/
theorem C6_build_prompt_assembly_witness :
    (List.replicate 10 (⟨"m", "user", "hello", "t", []⟩ : ChatMessage)).length = 10 ∧
    build_prompt none "q"
        ([⟨"m0", "system", "dropped", "t0", []⟩] ++
          List.replicate 10 (⟨"m", "user", "hello", "t", []⟩ : ChatMessage)) =
      build_prompt none "q" (List.replicate 10 (⟨"m", "user", "hello", "t", []⟩ : ChatMessage)) :=
  ⟨by decide,
   (C6_build_prompt_assembly none "q" []).2 [⟨"m0", "system", "dropped", "t0", []⟩]
     (List.replicate 10 (⟨"m", "user", "hello", "t", []⟩ : ChatMessage)) (by decide)⟩

/-! ## Claim C7 -/

theorem foldl_stepLine_output (lines : List OCLine) (fr0 : Option FinalResult)
    (out0 : List String) (p0 : List (String × String)) :
    (lines.foldl stepLine (fr0, out0, p0)).2.1 = out0 ++ allOutputOf lines := by
  induction lines generalizing fr0 out0 p0 with
  | nil => simp [allOutputOf]
  | cons l rest ih =>
      cases l with
      | raw s =>
          by_cases h : (trimStr s).isEmpty = true
          · simp only [List.foldl_cons, stepLine, lineText, if_pos h, ih]
            simp [allOutputOf, lineText, h]
          · have h2 : (trimStr s).isEmpty = false := by
              revert h; cases (trimStr s).isEmpty <;> simp
            simp only [List.foldl_cons, stepLine, lineText, h2, Bool.false_eq_true, if_false, ih]
            simp [allOutputOf, lineText, h2]
      | json s e =>
          by_cases h : (trimStr s).isEmpty = true
          · simp only [List.foldl_cons, stepLine, lineText, if_pos h, ih]
            simp [allOutputOf, lineText, h]
          · have h2 : (trimStr s).isEmpty = false := by
              revert h; cases (trimStr s).isEmpty <;> simp
            simp only [List.foldl_cons, stepLine, lineText, h2, Bool.false_eq_true, if_false, ih]
            simp [allOutputOf, lineText, h2]

/-- C7: when the child exits nonzero, the runner raises `OpenCode failed:`
followed by the tail (last 200 lines) of the captured output; `process_job`
— which is total, so the worker loop does not crash — then marks the job
failed with that error message and publishes an `error` event carrying it. -/
theorem C7_nonzero_exit_fails_job (s : QueueState) (chats : ChatStore)
    (pubs : List (String × String)) (job_id : String) (job : Job) (lines : List OCLine)
    (exitCode : Nat) (now : Nat) (nowStr : String)
    (hjob : s.jobs.lookup job_id = some job) (hexit : exitCode ≠ 0)
    (hne : (String.intercalate "\n" (takeLastN 200 (allOutputOf lines))).isEmpty = false) :
    (runnerRun lines exitCode).1 =
      Except.error
        ("OpenCode failed: " ++ String.intercalate "\n" (takeLastN 200 (allOutputOf lines))) ∧
    (∃ jb,
      (process_job s chats pubs job_id lines exitCode now nowStr).1.jobs.lookup job_id =
        some jb ∧
      jb.status = "failed" ∧
      jb.error = some
        ("OpenCode failed: " ++ String.intercalate "\n" (takeLastN 200 (allOutputOf lines)))) ∧
    ("error",
      "OpenCode failed: " ++ String.intercalate "\n" (takeLastN 200 (allOutputOf lines)))
      ∈ (process_job s chats pubs job_id lines exitCode now nowStr).2.2 := by
  have houtl : (lines.foldl stepLine
      (none, [], [("status", "Starting OpenCode processing...")])).2.1 = allOutputOf lines := by
    simpa using foldl_stepLine_output lines none [] [("status", "Starting OpenCode processing...")]
  have hnonnil : allOutputOf lines ≠ [] := by
    intro hnil
    have htrue : (String.intercalate "\n" (takeLastN 200 ([] : List String))).isEmpty = true := by
      decide
    rw [hnil, htrue] at hne
    exact Bool.noConfusion hne
  have hlistne : (allOutputOf lines).isEmpty = false := by
    cases hp : allOutputOf lines with
    | nil => exact absurd hp hnonnil
    | cons a l => simp
  have hrun : runnerRun lines exitCode =
      (Except.error
        ("OpenCode failed: " ++ String.intercalate "\n" (takeLastN 200 (allOutputOf lines))),
       (lines.foldl stepLine (none, [], [("status", "Starting OpenCode processing...")])).2.2) := by
    simp only [runnerRun, houtl, hlistne, Bool.false_eq_true, if_false, hexit,
      ne_eq, not_false_eq_true, if_true, hne]
  refine ⟨by rw [hrun], ?_, ?_⟩
  · have hs2 : (process_job s chats pubs job_id lines exitCode now nowStr).1.jobs.lookup job_id = some { job with status := "failed", error := some ("OpenCode failed: " ++ String.intercalate "\n" (takeLastN 200 (allOutputOf lines))), updated_at := now } := by
      simp only [process_job, hjob, hrun]
      simp [consumerUpdateJob, hjob, List.lookup]
    exact ⟨_, hs2, rfl, rfl⟩
  · simp only [process_job, hjob, hrun]
    simp

/-- C7, witness: scenario S6 — a runner that printed `boom` and exited 1
leaves the job failed with error `OpenCode failed: boom` (which contains
`boom`) and an `error` event is published. -/
theorem C7_nonzero_exit_fails_job_witness :
    (runnerRun [OCLine.raw "boom"] 1).1 = Except.error "OpenCode failed: boom" ∧
    (∃ jb,
      (process_job ⟨[("j1", ⟨"j1", "q0", none, "queued", none, none, 0, 0⟩)], []⟩ ⟨[], []⟩ []
          "j1" [OCLine.raw "boom"] 1 7 "t7").1.jobs.lookup "j1" = some jb ∧
      jb.status = "failed" ∧ jb.error = some "OpenCode failed: boom") ∧
    ("error", "OpenCode failed: boom")
      ∈ (process_job ⟨[("j1", ⟨"j1", "q0", none, "queued", none, none, 0, 0⟩)], []⟩ ⟨[], []⟩ []
          "j1" [OCLine.raw "boom"] 1 7 "t7").2.2 := by
  have heq : ("OpenCode failed: " ++
      String.intercalate "\n" (takeLastN 200 (allOutputOf [OCLine.raw "boom"]))) =
      "OpenCode failed: boom" := by decide
  have h := C7_nonzero_exit_fails_job
    ⟨[("j1", ⟨"j1", "q0", none, "queued", none, none, 0, 0⟩)], []⟩ ⟨[], []⟩ []
    "j1" ⟨"j1", "q0", none, "queued", none, none, 0, 0⟩ [OCLine.raw "boom"] 1 7 "t7"
    (by decide) (by decide) (by decide)
  rw [heq] at h
  exact h

end FinKG
